import Mathlib

/-!
Verification of the liquefaction report generator (`src/app.py`).

The Python source is shallowly embedded:

* A Python float that can be `NaN` (pandas' missing-value sentinel) is modelled
  as `Option ℚ`, with `none` playing the role of `NaN` (`pd.isna` is true
  exactly on `none`).  Rationals idealise IEEE doubles; every comparison the
  source performs is against thresholds (0.75, 1.0, 1.2) at which double
  rounding cannot change the branch taken.
* Python comparisons involving `NaN` are always false; the helpers `pyLt` and
  `pyGtF` encode this.
* A pandas `DataFrame` is modelled columnar: a list of (column name, cell list)
  pairs, with cells that are missing, numeric, or string valued.
* The fpdf `Booklet` is modelled as its list of pages, each page being the list
  of text cells / embedded chart images placed on it by the source.
-/

set_option maxHeartbeats 1000000

namespace LiqApp

/-- A possibly-missing float value: `none` models `NaN`. -/
abbrev FloatV := Option ℚ

/-- Python `x < c` where `x` may be `NaN`: any comparison with `NaN` is false. -/
def pyLt (x : FloatV) (c : ℚ) : Bool :=
  match x with
  | some a => decide (a < c)
  | none => false

/-- Python `x > y` on possibly-`NaN` floats: false whenever either is `NaN`. -/
def pyGtF (x y : FloatV) : Bool :=
  match x, y with
  | some a, some b => decide (b < a)
  | _, _ => false

/-- Lowercasing as Python's `str.lower` does on the ASCII range (the only range
relevant to the source's `"soft"` substring check). -/
def pyLower (s : String) : String :=
  String.mk (s.data.map Char.toLower)

/-- Whether `needle` occurs as a contiguous sublist of `hay`. -/
def listInfix (needle : List Char) : List Char → Bool
  | [] => needle.isEmpty
  | c :: t => needle.isPrefixOf (c :: t) || listInfix needle t

/-- Python's substring test `needle in hay`. -/
def strContains (hay needle : String) : Bool :=
  listInfix needle.data hay.data

/-- `compute_risk_level` (src/app.py lines 15-23): `pd.isna` guard, then strict
`<` against 0.75 and 1.0. -/
def compute_risk_level (fl : FloatV) : String :=
  match fl with
  | none => "Unknown"
  | some x =>
    if x < 3/4 then "High"
    else if x < 1 then "Moderate"
    else "Low"

/-- `suggest_foundation` (src/app.py lines 25-34).  The argument `ground_type`
is `none` for Python `None`; the source's `(ground_type or "").lower()` turns
`None` into `""` (`Option.getD`).  The source's final conditional expression
`A if "soft" not in gt else B` is written with the branches swapped. -/
def suggest_foundation (fl : FloatV) (ground_type : Option String) : String :=
  match fl with
  | none => "Review required"
  | some x =>
    let gt : String := pyLower (ground_type.getD "")
    if x < 3/4 then "Pile foundation + Ground improvement"
    else if x < 1 then "Raft foundation + Partial improvement"
    else if strContains gt "soft" then "Raft foundation + Monitoring"
    else "Spread/Strip foundation"

/-- C1: `compute_risk_level` returns "Unknown" on missing FL, "High" for
FL < 0.75, "Moderate" for 0.75 ≤ FL < 1.0, "Low" for FL ≥ 1.0; both
comparisons are strict, so FL = 0.75 is "Moderate" and FL = 1.0 is "Low". -/
theorem compute_risk_level_thresholds :
    compute_risk_level none = "Unknown" ∧
    ∀ q : ℚ,
      (q < 3/4 → compute_risk_level (some q) = "High") ∧
      (3/4 ≤ q → q < 1 → compute_risk_level (some q) = "Moderate") ∧
      (1 ≤ q → compute_risk_level (some q) = "Low") ∧
      compute_risk_level (some (3/4)) = "Moderate" ∧
      compute_risk_level (some 1) = "Low" := by
  refine ⟨rfl, fun q => ⟨?_, ?_, ?_, ?_, ?_⟩⟩
  · intro h
    simp [compute_risk_level, h]
  · intro h1 h2
    have h3 : ¬ q < 3/4 := not_lt.mpr h1
    simp [compute_risk_level, h3, h2]
  · intro h1
    have h2 : ¬ q < 3/4 := by
      push_neg
      linarith
    have h3 : ¬ q < 1 := not_lt.mpr h1
    simp [compute_risk_level, h2, h3]
  · norm_num [compute_risk_level]
  · norm_num [compute_risk_level]

/-- Witness for C1 at concrete inputs in each bucket. -/
theorem compute_risk_level_thresholds_w :
    ((1 : ℚ)/2 < 3/4 ∧ compute_risk_level (some (1/2)) = "High") ∧
    ((3 : ℚ)/4 ≤ 9/10 ∧ (9 : ℚ)/10 < 1 ∧ compute_risk_level (some (9/10)) = "Moderate") ∧
    ((1 : ℚ) ≤ 3/2 ∧ compute_risk_level (some (3/2)) = "Low") :=
  ⟨⟨by norm_num, (compute_risk_level_thresholds.2 (1/2)).1 (by norm_num)⟩,
   ⟨by norm_num, by norm_num,
    (compute_risk_level_thresholds.2 (9/10)).2.1 (by norm_num) (by norm_num)⟩,
   ⟨by norm_num, (compute_risk_level_thresholds.2 (3/2)).2.2.1 (by norm_num)⟩⟩

/-- C2: `suggest_foundation` returns "Review required" on missing FL; for
FL < 0.75 "Pile foundation + Ground improvement" and for 0.75 ≤ FL < 1.0
"Raft foundation + Partial improvement", in both cases whatever the ground
type; and for FL ≥ 1.0 the result depends on the case-insensitive "soft"
substring check, which applies only in this branch. -/
theorem suggest_foundation_branches :
    ∀ gt : Option String,
      suggest_foundation none gt = "Review required" ∧
      ∀ q : ℚ,
        (q < 3/4 → suggest_foundation (some q) gt = "Pile foundation + Ground improvement") ∧
        (3/4 ≤ q → q < 1 →
          suggest_foundation (some q) gt = "Raft foundation + Partial improvement") ∧
        (1 ≤ q →
          suggest_foundation (some q) gt =
            (if strContains (pyLower (gt.getD "")) "soft" then "Raft foundation + Monitoring"
             else "Spread/Strip foundation")) := by
  refine fun gt => ⟨rfl, fun q => ⟨?_, ?_, ?_⟩⟩
  · intro h
    simp [suggest_foundation, h]
  · intro h1 h2
    have h3 : ¬ q < 3/4 := not_lt.mpr h1
    simp [suggest_foundation, h3, h2]
  · intro h1
    have h2 : ¬ q < 3/4 := by
      push_neg
      linarith
    have h3 : ¬ q < 1 := not_lt.mpr h1
    simp [suggest_foundation, h2, h3]

/-- Witness for C2: the spec's own examples FL=1.2 with "Soft clay" / "Medium",
plus the missing-FL case. -/
theorem suggest_foundation_branches_w :
    suggest_foundation none (some "Medium") = "Review required" ∧
    ((1 : ℚ) ≤ 6/5 ∧
      suggest_foundation (some (6/5)) (some "Soft clay") = "Raft foundation + Monitoring") ∧
    ((1 : ℚ) ≤ 6/5 ∧
      suggest_foundation (some (6/5)) (some "Medium") = "Spread/Strip foundation") := by
  refine ⟨(suggest_foundation_branches (some "Medium")).1, ⟨by norm_num, ?_⟩, ⟨by norm_num, ?_⟩⟩
  · rw [((suggest_foundation_branches (some "Soft clay")).2 (6/5)).2.2 (by norm_num)]
    decide
  · rw [((suggest_foundation_branches (some "Medium")).2 (6/5)).2.2 (by norm_num)]
    decide

/-- C9: a negative FL satisfies `fl < 0.75`, so it lands in the highest-risk
bucket of both classifiers rather than being rejected. -/
theorem negative_fl_highest_risk :
    ∀ q : ℚ, q < 0 → ∀ gt : Option String,
      compute_risk_level (some q) = "High" ∧
      suggest_foundation (some q) gt = "Pile foundation + Ground improvement" := by
  intro q h gt
  have h1 : q < 3/4 := by linarith
  exact ⟨(compute_risk_level_thresholds.2 q).1 h1,
    ((suggest_foundation_branches gt).2 q).1 h1⟩

/-- Witness for C9 at FL = -1 with a concrete ground type. -/
theorem negative_fl_highest_risk_w :
    (-1 : ℚ) < 0 ∧
    compute_risk_level (some (-1)) = "High" ∧
    suggest_foundation (some (-1)) (some "Medium") = "Pile foundation + Ground improvement" :=
  ⟨by norm_num, negative_fl_highest_risk (-1) (by norm_num) (some "Medium")⟩

/-- C10: `suggest_foundation` treats a `None` ground type exactly like the
empty string (the source's `ground_type or ""`), so it never fails on a
missing ground type, and in the FL ≥ 1.0 branch the empty string contains no
"soft", giving "Spread/Strip foundation". -/
theorem suggest_foundation_total_ground_type :
    (∀ fl : FloatV, suggest_foundation fl none = suggest_foundation fl (some "")) ∧
    ∀ q : ℚ, 1 ≤ q → suggest_foundation (some q) none = "Spread/Strip foundation" := by
  constructor
  · intro fl
    cases fl <;> rfl
  · intro q h1
    have h2 : ¬ q < 3/4 := by
      push_neg
      linarith
    have h3 : ¬ q < 1 := not_lt.mpr h1
    simp only [suggest_foundation, h2, if_false, h3]
    decide

/-- Witness for C10 at FL = 3/2. -/
theorem suggest_foundation_total_ground_type_w :
    (1 : ℚ) ≤ 3/2 ∧ suggest_foundation (some (3/2)) none = "Spread/Strip foundation" :=
  ⟨by norm_num, suggest_foundation_total_ground_type.2 (3/2) (by norm_num)⟩

/-- A cell of the data table: missing (`None`/`NaN`), numeric, or string. -/
inductive Cell where
  | null : Cell
  | num (q : ℚ) : Cell
  | str (s : String) : Cell
deriving DecidableEq

/-- `pd.isna` on a cell. -/
def Cell.isna : Cell → Bool
  | .null => true
  | _ => false

/-- Python `str(...)` of a cell value; `NaN` prints as the sentinel's textual
form (`"nan"`; a column-insertion `None` prints as `"None"`, also a sentinel
textual form — the distinction never matters to any claim). -/
def Cell.pyStr : Cell → String
  | .null => "nan"
  | .num q => toString q
  | .str s => s

/-- Digits of a decimal literal as a natural number, `none` on a malformed
or empty digit run. -/
def digitsVal (l : List Char) : Option Nat :=
  if !l.isEmpty && l.all Char.isDigit then
    some (l.foldl (fun n c => 10 * n + (c.toNat - 48)) 0)
  else none

/-- Parse an unsigned decimal literal (`"12"`, `"0.95"`). -/
def parseUnsigned (l : List Char) : Option ℚ :=
  let intPart := l.takeWhile (fun c => c != '.')
  match l.dropWhile (fun c => c != '.') with
  | [] => (digitsVal intPart).map (fun n => (n : ℚ))
  | _ :: frac =>
    if frac.any (fun c => c == '.') then none
    else
      match digitsVal intPart, digitsVal frac with
      | some i, some f => some ((i : ℚ) + (f : ℚ) / (10 : ℚ) ^ frac.length)
      | _, _ => none

/-- Parse a signed decimal literal, modelling the numbers `pd.to_numeric`
accepts in this pipeline. -/
def parsePyFloat (s : String) : Option ℚ :=
  match s.data with
  | '-' :: rest => (parseUnsigned rest).map Neg.neg
  | '+' :: rest => parseUnsigned rest
  | l => parseUnsigned l

/-- One cell under `pd.to_numeric(..., errors="coerce")`: numbers pass
through, anything unparseable becomes the missing sentinel. -/
def Cell.toNumeric : Cell → Cell
  | .null => .null
  | .num q => .num q
  | .str s =>
    match parsePyFloat s with
    | some q => .num q
    | none => .null

/-- The float a cell holds when it reaches a numeric context (`FL` is always
numeric-or-missing there, the source having coerced the column first). -/
def Cell.asFloat : Cell → FloatV
  | .num q => some q
  | _ => none

/-- The ground-type value a cell passes to `suggest_foundation`: a string cell
is passed as-is, a missing cell arrives as Python `None` (the source's
`df[col] = None` insertion), which the callee coerces to `""`. -/
def Cell.asGroundType : Cell → Option String
  | .str s => some s
  | _ => none

/-- A pandas `DataFrame`, columnar: column names with their cell lists, in
column order. -/
abbrev Table := List (String × List Cell)

/-- `c in df.columns`. -/
def Table.hasCol (t : Table) (c : String) : Bool :=
  t.any (fun p => p.1 == c)

/-- `df[c]` (first column of that name; pandas names are unique). -/
def Table.col : Table → String → List Cell
  | [], _ => []
  | p :: rest, c => if p.1 == c then p.2 else Table.col rest c

/-- Number of rows (length of the first column; pandas keeps all columns the
same length). -/
def Table.nrows : Table → Nat
  | [] => 0
  | p :: _ => p.2.length

/-- The value of column `c` in row `i`. -/
def Table.cellAt (t : Table) (c : String) (i : Nat) : Cell :=
  (t.col c).getD i Cell.null

/-- `df[c] = v`: replace the column in place, or append it as the last
column when absent. -/
def Table.setCol : Table → String → List Cell → Table
  | [], c, v => [(c, v)]
  | p :: rest, c, v => if p.1 == c then (c, v) :: rest else p :: Table.setCol rest c v

theorem Table.hasCol_nil (c : String) : Table.hasCol [] c = false := rfl

theorem Table.hasCol_cons (p : String × List Cell) (rest : Table) (c : String) :
    Table.hasCol (p :: rest) c = (p.1 == c || Table.hasCol rest c) := by
  simp [Table.hasCol]

theorem Table.col_setCol_self (t : Table) (c : String) (v : List Cell) :
    (t.setCol c v).col c = v := by
  induction t with
  | nil => simp [Table.setCol, Table.col]
  | cons p rest ih =>
    by_cases h : p.1 = c
    · simp [Table.setCol, Table.col, h]
    · simp [Table.setCol, Table.col, h, ih]

theorem Table.col_setCol_ne (t : Table) {c c' : String} (h : c ≠ c') (v : List Cell) :
    (t.setCol c' v).col c = t.col c := by
  induction t with
  | nil => simp [Table.setCol, Table.col, Ne.symm h]
  | cons p rest ih =>
    by_cases hp : p.1 = c'
    · have hpc : ¬ p.1 = c := by
        rw [hp]
        exact Ne.symm h
      simp [Table.setCol, Table.col, hp, Ne.symm h, hpc]
    · by_cases hc : p.1 = c
      · simp [Table.setCol, Table.col, hp, hc, h]
      · simp [Table.setCol, Table.col, hp, hc, ih]

theorem Table.hasCol_setCol (t : Table) (c c' : String) (v : List Cell) :
    (t.setCol c' v).hasCol c = (t.hasCol c || c' == c) := by
  induction t with
  | nil => simp [Table.setCol, Table.hasCol]
  | cons p rest ih =>
    by_cases hp : p.1 = c'
    · rw [show Table.setCol (p :: rest) c' v = (c', v) :: rest by simp [Table.setCol, hp]]
      rw [Table.hasCol_cons, Table.hasCol_cons, hp]
      cases hc : (c' == c) <;> simp [hc]
    · rw [show Table.setCol (p :: rest) c' v = p :: Table.setCol rest c' v by
        simp [Table.setCol, hp]]
      rw [Table.hasCol_cons, Table.hasCol_cons, ih, Bool.or_assoc]

theorem Table.hasCol_setCol_mono {t : Table} {c : String} (h : t.hasCol c = true)
    (c' : String) (v : List Cell) : (t.setCol c' v).hasCol c = true := by
  rw [Table.hasCol_setCol, h, Bool.true_or]

theorem Table.hasCol_setCol_self (t : Table) (c : String) (v : List Cell) :
    (t.setCol c v).hasCol c = true := by
  rw [Table.hasCol_setCol]
  simp

/-- One iteration of the source's required-column loop:
`if col not in df.columns: df[col] = None` (a broadcast `None` fills the
column with the missing sentinel). -/
def insertNull (t : Table) (c : String) : Table :=
  if t.hasCol c then t else t.setCol c (List.replicate t.nrows Cell.null)

theorem nrows_setCol_rep (t : Table) (c : String) :
    (t.setCol c (List.replicate t.nrows Cell.null)).nrows = t.nrows := by
  cases t with
  | nil => simp [Table.setCol, Table.nrows]
  | cons p rest =>
    by_cases hp : p.1 = c <;> simp [Table.setCol, Table.nrows, hp]

theorem nrows_insertNull (t : Table) (c : String) :
    (insertNull t c).nrows = t.nrows := by
  unfold insertNull
  split
  · rfl
  · exact nrows_setCol_rep t c

theorem hasCol_insertNull_self (t : Table) (c : String) :
    (insertNull t c).hasCol c = true := by
  unfold insertNull
  split
  · assumption
  · exact Table.hasCol_setCol_self t c _

theorem hasCol_insertNull_mono {t : Table} {c : String} (h : t.hasCol c = true)
    (c' : String) : (insertNull t c').hasCol c = true := by
  unfold insertNull
  split
  · exact h
  · exact Table.hasCol_setCol_mono h c' _

theorem hasCol_insertNull_ne {t : Table} {c c' : String} (h : c ≠ c') :
    (insertNull t c').hasCol c = t.hasCol c := by
  unfold insertNull
  split
  · rfl
  · rw [Table.hasCol_setCol]
    have : (c' == c) = false := by
      simp [Ne.symm h]
    rw [this, Bool.or_false]

theorem col_insertNull_ne {t : Table} {c c' : String} (h : c ≠ c') :
    (insertNull t c').col c = t.col c := by
  unfold insertNull
  split
  · rfl
  · exact Table.col_setCol_ne t h _

theorem col_insertNull_absent {t : Table} {c : String} (h : t.hasCol c = false) :
    (insertNull t c).col c = List.replicate t.nrows Cell.null := by
  unfold insertNull
  rw [h]
  simp [Table.col_setCol_self]

/-- The source's required-column loop over `["id", "FL", "ground_type"]`
(src/app.py lines 180-182). -/
def insert_missing (df : Table) : Table :=
  ["id", "FL", "ground_type"].foldl (fun d c => insertNull d c) df

theorem insert_missing_eq (df : Table) :
    insert_missing df = insertNull (insertNull (insertNull df "id") "FL") "ground_type" := rfl

/-- `df["FL"] = pd.to_numeric(df["FL"], errors="coerce")`, guarded by the
source's `if "FL" in df.columns` (line 184-185). -/
def coerceFL (df : Table) : Table :=
  if df.hasCol "FL" then df.setCol "FL" ((df.col "FL").map Cell.toNumeric) else df

/-- The derived risk cell of one FL cell. -/
def riskOfCell (c : Cell) : Cell :=
  Cell.str (compute_risk_level c.asFloat)

/-- The derived suggestion cell of one (FL, ground type) pair of cells. -/
def suggOfCells (flc gtc : Cell) : Cell :=
  Cell.str (suggest_foundation flc.asFloat gtc.asGroundType)

/-- `df["risk_level"] = df["FL"].apply(compute_risk_level)` (line 187). -/
def setRisk (df : Table) : Table :=
  df.setCol "risk_level" ((df.col "FL").map riskOfCell)

/-- The column built by
`df.apply(lambda r: suggest_foundation(r["FL"], r.get("ground_type", "")), axis=1)`:
rows are paired FL/ground-type cells; `r.get` falls back to `""` per row when
the column is missing. -/
def suggestionCol (t : Table) : List Cell :=
  List.zipWith suggOfCells (t.col "FL")
    (if t.hasCol "ground_type" then t.col "ground_type"
     else List.replicate t.nrows (Cell.str ""))

/-- `df["suggestion"] = df.apply(..., axis=1)` (line 188). -/
def setSuggestion (df : Table) : Table :=
  df.setCol "suggestion" (suggestionCol df)

/-- `if "note" not in df.columns: df["note"] = ""` (lines 189-190). -/
def addNoteIfMissing (df : Table) : Table :=
  if df.hasCol "note" then df else df.setCol "note" (List.replicate df.nrows (Cell.str ""))

/-- `ensure_columns` (src/app.py lines 178-191), as the composition of its
four statements. -/
def ensure_columns (df : Table) : Table :=
  addNoteIfMissing (setSuggestion (setRisk (coerceFL (insert_missing df))))

/-- The post-edit recomputation (src/app.py lines 217-219): re-coerce `FL`
(unguarded there) and recompute both derived columns. -/
def recompute_derived (df : Table) : Table :=
  setSuggestion (setRisk (df.setCol "FL" ((df.col "FL").map Cell.toNumeric)))

/-- The built-in sample table (src/app.py lines 171-176). -/
def get_sample_df : Table :=
  [("id", [Cell.str "A01", Cell.str "A02", Cell.str "A03"]),
   ("lat", [Cell.num (356895/10000), Cell.num (356900/10000), Cell.num (356880/10000)]),
   ("lon", [Cell.num (1396917/10000), Cell.num (1396920/10000), Cell.num (1396900/10000)]),
   ("FL", [Cell.num (81/100), Cell.num (115/100), Cell.num (95/100)]),
   ("ground_type", [Cell.str "Soft ground", Cell.str "Medium", Cell.str "Soft ground"])]

theorem hasCol_coerceFL_mono {t : Table} {c : String} (h : t.hasCol c = true) :
    (coerceFL t).hasCol c = true := by
  unfold coerceFL
  split
  · exact Table.hasCol_setCol_mono h "FL" _
  · exact h

theorem col_coerceFL_ne {t : Table} {c : String} (h : c ≠ "FL") :
    (coerceFL t).col c = t.col c := by
  unfold coerceFL
  split
  · exact Table.col_setCol_ne t h _
  · rfl

theorem col_FL_coerceFL {t : Table} (h : t.hasCol "FL" = true) :
    (coerceFL t).col "FL" = (t.col "FL").map Cell.toNumeric := by
  unfold coerceFL
  rw [h]
  simp [Table.col_setCol_self]

theorem hasCol_setRisk_mono {t : Table} {c : String} (h : t.hasCol c = true) :
    (setRisk t).hasCol c = true :=
  Table.hasCol_setCol_mono h _ _

theorem col_setRisk_ne {t : Table} {c : String} (h : c ≠ "risk_level") :
    (setRisk t).col c = t.col c :=
  Table.col_setCol_ne t h _

theorem hasCol_setSuggestion_mono {t : Table} {c : String} (h : t.hasCol c = true) :
    (setSuggestion t).hasCol c = true :=
  Table.hasCol_setCol_mono h _ _

theorem col_setSuggestion_ne {t : Table} {c : String} (h : c ≠ "suggestion") :
    (setSuggestion t).col c = t.col c :=
  Table.col_setCol_ne t h _

theorem col_addNote_ne {t : Table} {c : String} (h : c ≠ "note") :
    (addNoteIfMissing t).col c = t.col c := by
  unfold addNoteIfMissing
  split
  · rfl
  · exact Table.col_setCol_ne t h _

theorem hasCol_addNote_mono {t : Table} {c : String} (h : t.hasCol c = true) :
    (addNoteIfMissing t).hasCol c = true := by
  unfold addNoteIfMissing
  split
  · exact h
  · exact Table.hasCol_setCol_mono h "note" _

theorem hasCol_id_insert (df : Table) : (insert_missing df).hasCol "id" = true := by
  rw [insert_missing_eq]
  exact hasCol_insertNull_mono
    (hasCol_insertNull_mono (hasCol_insertNull_self df "id") "FL") "ground_type"

theorem hasCol_FL_insert (df : Table) : (insert_missing df).hasCol "FL" = true := by
  rw [insert_missing_eq]
  exact hasCol_insertNull_mono (hasCol_insertNull_self (insertNull df "id") "FL") "ground_type"

theorem hasCol_gt_insert (df : Table) :
    (insert_missing df).hasCol "ground_type" = true := by
  rw [insert_missing_eq]
  exact hasCol_insertNull_self _ "ground_type"

theorem hasCol_ensure_of_insert {df : Table} {c : String}
    (h : (insert_missing df).hasCol c = true) :
    (ensure_columns df).hasCol c = true :=
  hasCol_addNote_mono (hasCol_setSuggestion_mono (hasCol_setRisk_mono (hasCol_coerceFL_mono h)))

theorem col_ensure_of_insert {c : String} (df : Table) (h1 : c ≠ "FL") (h2 : c ≠ "risk_level")
    (h3 : c ≠ "suggestion") (h4 : c ≠ "note") :
    (ensure_columns df).col c = (insert_missing df).col c := by
  unfold ensure_columns
  rw [col_addNote_ne h4, col_setSuggestion_ne h3, col_setRisk_ne h2, col_coerceFL_ne h1]

theorem col_FL_ensure (df : Table) :
    (ensure_columns df).col "FL" = ((insert_missing df).col "FL").map Cell.toNumeric := by
  unfold ensure_columns
  rw [col_addNote_ne (by decide), col_setSuggestion_ne (by decide), col_setRisk_ne (by decide),
    col_FL_coerceFL (hasCol_FL_insert df)]

/-- C6: after `ensure_columns`, the table always contains the required
columns `id`, `FL`, `ground_type` (the spec's camel-case `groundType` names
this source column), and each one that was absent from the input was inserted
as an all-missing column. -/
theorem ensure_columns_required (df : Table) :
    (ensure_columns df).hasCol "id" = true ∧
    (ensure_columns df).hasCol "FL" = true ∧
    (ensure_columns df).hasCol "ground_type" = true ∧
    (df.hasCol "id" = false →
      (ensure_columns df).col "id" = List.replicate df.nrows Cell.null) ∧
    (df.hasCol "FL" = false →
      (ensure_columns df).col "FL" = List.replicate df.nrows Cell.null) ∧
    (df.hasCol "ground_type" = false →
      (ensure_columns df).col "ground_type" = List.replicate df.nrows Cell.null) := by
  refine ⟨hasCol_ensure_of_insert (hasCol_id_insert df),
    hasCol_ensure_of_insert (hasCol_FL_insert df),
    hasCol_ensure_of_insert (hasCol_gt_insert df), ?_, ?_, ?_⟩
  · intro h
    rw [col_ensure_of_insert df (by decide) (by decide) (by decide) (by decide),
      insert_missing_eq, col_insertNull_ne (show ("id" : String) ≠ "ground_type" by decide),
      col_insertNull_ne (show ("id" : String) ≠ "FL" by decide), col_insertNull_absent h]
  · intro h
    have h1 : (insertNull df "id").hasCol "FL" = false := by
      rw [hasCol_insertNull_ne (show ("FL" : String) ≠ "id" by decide)]
      exact h
    rw [col_FL_ensure, insert_missing_eq,
      col_insertNull_ne (show ("FL" : String) ≠ "ground_type" by decide),
      col_insertNull_absent h1, nrows_insertNull, List.map_replicate]
    rfl
  · intro h
    have h1 : (insertNull df "id").hasCol "ground_type" = false := by
      rw [hasCol_insertNull_ne (show ("ground_type" : String) ≠ "id" by decide)]
      exact h
    have h2 : (insertNull (insertNull df "id") "FL").hasCol "ground_type" = false := by
      rw [hasCol_insertNull_ne (show ("ground_type" : String) ≠ "FL" by decide)]
      exact h1
    rw [col_ensure_of_insert df (by decide) (by decide) (by decide) (by decide),
      insert_missing_eq, col_insertNull_absent h2, nrows_insertNull, nrows_insertNull]

/-- A table without any of the required columns, for the C6 witness. -/
def dfOnlyX : Table := [("x", [Cell.num 1])]

/-- Witness for C6 on a table lacking all three required columns. -/
theorem ensure_columns_required_w :
    (ensure_columns dfOnlyX).hasCol "id" = true ∧
    (ensure_columns dfOnlyX).hasCol "FL" = true ∧
    (ensure_columns dfOnlyX).hasCol "ground_type" = true ∧
    (dfOnlyX.hasCol "id" = false ∧
      (ensure_columns dfOnlyX).col "id" = List.replicate dfOnlyX.nrows Cell.null) ∧
    (dfOnlyX.hasCol "FL" = false ∧
      (ensure_columns dfOnlyX).col "FL" = List.replicate dfOnlyX.nrows Cell.null) ∧
    (dfOnlyX.hasCol "ground_type" = false ∧
      (ensure_columns dfOnlyX).col "ground_type" = List.replicate dfOnlyX.nrows Cell.null) :=
  ⟨(ensure_columns_required dfOnlyX).1, (ensure_columns_required dfOnlyX).2.1,
   (ensure_columns_required dfOnlyX).2.2.1,
   ⟨by decide, (ensure_columns_required dfOnlyX).2.2.2.1 (by decide)⟩,
   ⟨by decide, (ensure_columns_required dfOnlyX).2.2.2.2.1 (by decide)⟩,
   ⟨by decide, (ensure_columns_required dfOnlyX).2.2.2.2.2 (by decide)⟩⟩

/-- C8: after either derived-column pass (`ensure_columns` at intake, the
post-edit recomputation at lines 217-219), the `risk_level` column is exactly
`compute_risk_level` of the (coerced) `FL` column, and the `suggestion`
column is exactly `suggest_foundation` of the `FL`/`ground_type` columns,
row by row — derived values are never stale. -/
theorem derived_never_stale (df : Table) :
    ((ensure_columns df).col "risk_level" =
      ((ensure_columns df).col "FL").map riskOfCell) ∧
    ((ensure_columns df).col "suggestion" =
      List.zipWith suggOfCells ((ensure_columns df).col "FL")
        ((ensure_columns df).col "ground_type")) ∧
    ((recompute_derived df).col "risk_level" =
      ((recompute_derived df).col "FL").map riskOfCell) ∧
    (df.hasCol "ground_type" = true →
      (recompute_derived df).col "suggestion" =
        List.zipWith suggOfCells ((recompute_derived df).col "FL")
          ((recompute_derived df).col "ground_type")) := by
  have eFL : (ensure_columns df).col "FL" = (coerceFL (insert_missing df)).col "FL" := by
    unfold ensure_columns
    rw [col_addNote_ne (by decide), col_setSuggestion_ne (by decide),
      col_setRisk_ne (by decide)]
  have eGT : (ensure_columns df).col "ground_type" =
      (setRisk (coerceFL (insert_missing df))).col "ground_type" := by
    unfold ensure_columns
    rw [col_addNote_ne (by decide), col_setSuggestion_ne (by decide)]
  have eRisk : (ensure_columns df).col "risk_level" =
      ((coerceFL (insert_missing df)).col "FL").map riskOfCell := by
    unfold ensure_columns
    rw [col_addNote_ne (by decide), col_setSuggestion_ne (by decide)]
    exact Table.col_setCol_self _ _ _
  have eSugg : (ensure_columns df).col "suggestion" =
      suggestionCol (setRisk (coerceFL (insert_missing df))) := by
    unfold ensure_columns
    rw [col_addNote_ne (by decide)]
    exact Table.col_setCol_self _ _ _
  have hgtS : (setRisk (coerceFL (insert_missing df))).hasCol "ground_type" = true :=
    hasCol_setRisk_mono (hasCol_coerceFL_mono (hasCol_gt_insert df))
  have rFL : (recompute_derived df).col "FL" =
      (df.setCol "FL" ((df.col "FL").map Cell.toNumeric)).col "FL" := by
    unfold recompute_derived
    rw [col_setSuggestion_ne (by decide), col_setRisk_ne (by decide)]
  have rRisk : (recompute_derived df).col "risk_level" =
      ((df.setCol "FL" ((df.col "FL").map Cell.toNumeric)).col "FL").map riskOfCell := by
    unfold recompute_derived
    rw [col_setSuggestion_ne (by decide)]
    exact Table.col_setCol_self _ _ _
  have rSugg : (recompute_derived df).col "suggestion" =
      suggestionCol (setRisk (df.setCol "FL" ((df.col "FL").map Cell.toNumeric))) := by
    unfold recompute_derived
    exact Table.col_setCol_self _ _ _
  refine ⟨?_, ?_, ?_, ?_⟩
  · rw [eRisk, eFL]
  · rw [eSugg, eFL, eGT]
    unfold suggestionCol
    rw [hgtS]
    simp [col_setRisk_ne (show ("FL" : String) ≠ "risk_level" by decide)]
  · rw [rRisk, rFL]
  · intro h
    have hS : (setRisk (df.setCol "FL" ((df.col "FL").map Cell.toNumeric))).hasCol
        "ground_type" = true :=
      hasCol_setRisk_mono (Table.hasCol_setCol_mono h "FL" _)
    have rGT : (recompute_derived df).col "ground_type" =
        (setRisk (df.setCol "FL" ((df.col "FL").map Cell.toNumeric))).col "ground_type" := by
      unfold recompute_derived
      rw [col_setSuggestion_ne (by decide)]
    rw [rSugg, rFL, rGT]
    unfold suggestionCol
    rw [hS]
    simp [col_setRisk_ne (show ("FL" : String) ≠ "risk_level" by decide)]

/-- Witness for C8 on the built-in sample table. -/
theorem derived_never_stale_w :
    get_sample_df.hasCol "ground_type" = true ∧
    (recompute_derived get_sample_df).col "suggestion" =
      List.zipWith suggOfCells ((recompute_derived get_sample_df).col "FL")
        ((recompute_derived get_sample_df).col "ground_type") :=
  ⟨by decide, (derived_never_stale get_sample_df).2.2.2 (by decide)⟩

/-- One step of Python's builtin `max` over floats: keep the accumulator
unless the next element compares greater — and no comparison with `NaN` is
ever true, so a `NaN` accumulator is never displaced. -/
def pyMaxStep (acc x : FloatV) : FloatV :=
  if pyGtF x acc then x else acc

/-- Python `max(fls)` over a float list (raises on `[]` in Python; this model
is only ever applied under a non-emptiness hypothesis). -/
def pyMaxList : List FloatV → FloatV
  | [] => none
  | h :: t => t.foldl pyMaxStep h

/-- Python `max(a, x)` where `a` is a number literal and `x` may be `NaN`
(then `x > a` is false and `a` is returned). -/
def pyMax2 (a : ℚ) (x : FloatV) : ℚ :=
  match x with
  | some b => if a < b then b else a
  | none => a

/-- `x + c` on a possibly-`NaN` float (`NaN + c = NaN`). -/
def fadd (x : FloatV) (c : ℚ) : FloatV :=
  x.map (fun a => a + c)

/-- `df["FL"].astype(float)` on one cell. -/
def Cell.astypeFloat : Cell → FloatV :=
  Cell.asFloat

/-- The bar chart `plot_fl_bar` draws (src/app.py lines 50-62): per-record
labels, heights and colors, the dashed reference line, the axis titles, and
the y-limits. -/
structure BarChart where
  labels : List String
  heights : List FloatV
  colors : List String
  refLine : ℚ
  ylo : ℚ
  yhi : ℚ
  title : String
  ylabel : String
  xlabel : String
deriving DecidableEq

/-- `plot_fl_bar` (src/app.py lines 50-62).  `ids` via `astype(str)`, `fls`
via `astype(float)`, color by `x < 1.0` (false for `NaN`, hence the safe
color), reference line at 1.0, `set_ylim(0, max(1.2, max(fls) + 0.1))` with
Python `max` semantics on possibly-`NaN` floats. -/
def plot_fl_bar (df : Table) : BarChart :=
  let ids := (df.col "id").map Cell.pyStr
  let fls := (df.col "FL").map Cell.astypeFloat
  let colors := fls.map (fun x => if pyLt x 1 then "#d62728" else "#2ca02c")
  { labels := ids
    heights := fls
    colors := colors
    refLine := 1
    ylo := 0
    yhi := pyMax2 (6/5) (fadd (pyMaxList fls) (1/10))
    title := "FL value by site"
    ylabel := "FL"
    xlabel := "Site ID" }

/-- The scatter chart `plot_locations_scatter` draws (src/app.py lines
64-80): a fixed placeholder when the coordinate columns are not both
present, otherwise the (lon, lat) points annotated by id. -/
inductive ScatterChart where
  | placeholder (msg : String) : ScatterChart
  | scatter (points : List (Cell × Cell)) (labels : List String) : ScatterChart
deriving DecidableEq

/-- `plot_locations_scatter` (src/app.py lines 64-80). -/
def plot_locations_scatter (df : Table) : ScatterChart :=
  if df.hasCol "lat" && df.hasCol "lon" then
    ScatterChart.scatter (List.zip (df.col "lon") (df.col "lat"))
      ((df.col "id").map Cell.pyStr)
  else ScatterChart.placeholder "No coordinates provided"

/-- One step of the maximum over the present (non-`NaN`) values. -/
def maxPresentStep (a : ℚ) (x : FloatV) : ℚ :=
  match x with
  | some b => if a < b then b else a
  | none => a

/-- Maximum of `q` and all present values of `t`. -/
def maxPresent (q : ℚ) (t : List FloatV) : ℚ :=
  t.foldl maxPresentStep q

theorem foldl_pyMaxStep_some (t : List FloatV) : ∀ q : ℚ,
    t.foldl pyMaxStep (some q) = some (maxPresent q t) := by
  induction t with
  | nil => intro q; rfl
  | cons x xs ih =>
    intro q
    cases x with
    | none =>
      simpa [pyMaxStep, pyGtF, maxPresent, maxPresentStep] using ih q
    | some b =>
      by_cases h : q < b
      · simpa [pyMaxStep, pyGtF, maxPresent, maxPresentStep, h] using ih b
      · simpa [pyMaxStep, pyGtF, maxPresent, maxPresentStep, h] using ih q

theorem foldl_pyMaxStep_none (t : List FloatV) :
    t.foldl pyMaxStep none = none := by
  induction t with
  | nil => rfl
  | cons x xs ih =>
    cases x <;> simpa [pyMaxStep, pyGtF] using ih

theorem pyMax2_eq_max (a b : ℚ) : pyMax2 a (some b) = max a b := by
  by_cases h : a < b
  · simp [pyMax2, h, max_eq_right h.le]
  · simp [pyMax2, h, max_eq_left (not_lt.mp h)]

/-- C7 (amended): the bar chart has one bar per record in table order labeled
by id, the binary color rule `FL < 1.0` → alert color / otherwise (including
missing FL) → safe color, a reference line at 1.0 and lower y-bound 0; the
upper y-bound is `max(1.2, max(FL) + 0.1)` under Python `max` semantics: when
the first FL value is missing the running maximum is poisoned by `NaN` and
the bound falls back to 1.2, otherwise it is the maximum over the present FL
values plus headroom, floored at 1.2. -/
theorem plot_fl_bar_spec (df : Table) (h : df.nrows ≠ 0)
    (hlen : (df.col "FL").length = df.nrows) :
    (plot_fl_bar df).labels = (df.col "id").map Cell.pyStr ∧
    (plot_fl_bar df).heights = (df.col "FL").map Cell.astypeFloat ∧
    (plot_fl_bar df).colors =
      ((df.col "FL").map Cell.astypeFloat).map
        (fun x => if pyLt x 1 then "#d62728" else "#2ca02c") ∧
    (plot_fl_bar df).refLine = 1 ∧
    (plot_fl_bar df).ylo = 0 ∧
    (plot_fl_bar df).yhi =
      (match (df.col "FL").map Cell.astypeFloat with
       | [] => (6/5 : ℚ)
       | none :: _ => (6/5 : ℚ)
       | some q :: t => max (6/5) (maxPresent q t + 1/10)) := by
  refine ⟨rfl, rfl, rfl, rfl, rfl, ?_⟩
  show pyMax2 (6/5) (fadd (pyMaxList ((df.col "FL").map Cell.astypeFloat)) (1/10)) = _
  rcases hfl : (df.col "FL").map Cell.astypeFloat with _ | ⟨_ | q, t⟩
  · exfalso
    apply h
    rw [← hlen]
    have : (df.col "FL").map Cell.astypeFloat = [] := hfl
    simpa using congrArg List.length this
  · rw [show pyMaxList (none :: t) = t.foldl pyMaxStep none from rfl,
      foldl_pyMaxStep_none]
    rfl
  · rw [show pyMaxList (some q :: t) = t.foldl pyMaxStep (some q) from rfl,
      foldl_pyMaxStep_some, show fadd (some (maxPresent q t)) (1/10) =
        some (maxPresent q t + 1/10) from rfl, pyMax2_eq_max]

/-- Witness for C7 (amended) on the built-in sample table, whose FL values
are all present. -/
theorem plot_fl_bar_spec_w :
    get_sample_df.nrows ≠ 0 ∧
    (get_sample_df.col "FL").length = get_sample_df.nrows ∧
    ((plot_fl_bar get_sample_df).labels = (get_sample_df.col "id").map Cell.pyStr ∧
     (plot_fl_bar get_sample_df).heights = (get_sample_df.col "FL").map Cell.astypeFloat ∧
     (plot_fl_bar get_sample_df).colors =
       ((get_sample_df.col "FL").map Cell.astypeFloat).map
         (fun x => if pyLt x 1 then "#d62728" else "#2ca02c") ∧
     (plot_fl_bar get_sample_df).refLine = 1 ∧
     (plot_fl_bar get_sample_df).ylo = 0 ∧
     (plot_fl_bar get_sample_df).yhi =
       (match (get_sample_df.col "FL").map Cell.astypeFloat with
        | [] => (6/5 : ℚ)
        | none :: _ => (6/5 : ℚ)
        | some q :: t => max (6/5) (maxPresent q t + 1/10))) :=
  ⟨by decide, by decide, plot_fl_bar_spec get_sample_df (by decide) (by decide)⟩

/-- The upper y-bound exactly as the spec sentence words it: `max(1.2,
max(FL) + 0.1)` with `max(FL)` the maximum of the FL values that are present
(so that, as the spec says, all bars are visible with headroom). -/
def specUpperBound (fls : List FloatV) : ℚ :=
  match fls.filterMap id with
  | [] => 6/5
  | h :: t => max (6/5) (t.foldl max h + 1/10)

/-- A two-row table whose first FL is missing and whose second is 2.0. -/
def dfNanFirst : Table :=
  [("id", [Cell.str "A", Cell.str "B"]), ("FL", [Cell.null, Cell.num 2])]

/-- Counterexample to C7 as stated: with FL values `[NaN, 2.0]`, the source's
`max(fls)` is poisoned by the leading `NaN` (no comparison with `NaN` is
true, so the first element is never displaced), giving an upper y-bound of
1.2 instead of the claimed `max(1.2, 2.0 + 0.1) = 2.1` — the 2.0 bar is cut
off. -/
theorem plot_fl_bar_yhi_cx :
    (plot_fl_bar dfNanFirst).heights = [none, some 2] ∧
    (plot_fl_bar dfNanFirst).yhi = 6/5 ∧
    specUpperBound ((dfNanFirst.col "FL").map Cell.astypeFloat) = 21/10 ∧
    (plot_fl_bar dfNanFirst).yhi ≠
      specUpperBound ((dfNanFirst.col "FL").map Cell.astypeFloat) := by
  have hy : (plot_fl_bar dfNanFirst).yhi = 6/5 := rfl
  have hs : specUpperBound ((dfNanFirst.col "FL").map Cell.astypeFloat) = 21/10 := by
    show max (6/5 : ℚ) (([] : List ℚ).foldl max 2 + 1/10) = 21/10
    show max (6/5 : ℚ) (2 + 1/10) = 21/10
    rw [max_eq_right (by norm_num)]
    norm_num
  refine ⟨rfl, hy, hs, ?_⟩
  rw [hy, hs]
  norm_num

/-- Python whitespace for `str.strip`. -/
def isPySpace (c : Char) : Bool :=
  c == ' ' || c == '\t' || c == '\n' || c == '\r'

/-- Python `str.strip()`. -/
def pyStrip (s : String) : String :=
  String.mk (((s.data.dropWhile isPySpace).reverse.dropWhile isPySpace).reverse)

/-- The source's remarks guard `pd.notna(note) and str(note).strip()`
(truthiness of the stripped string = non-emptiness). -/
def noteVisible (c : Cell) : Bool :=
  !c.isna && !(pyStrip c.pyStr == "")

/-- Content placed on a booklet page: a text cell / multi-cell, or an
embedded chart image (the source saves each chart to a temporary PNG and
embeds that file; the image is identified here by the chart it renders). -/
inductive ChartImg where
  | barImg (b : BarChart) : ChartImg
  | scatterImg (s : ScatterChart) : ChartImg
deriving DecidableEq

inductive PdfItem where
  | text (s : String) : PdfItem
  | image (c : ChartImg) : PdfItem
deriving DecidableEq

abbrev Page := List PdfItem

/-- The fpdf `Booklet` document state: the pages opened so far by
`add_page`, most recent first (`pages` restores document order).  Cell
formatting (fonts, sizes, alignment) and the constant page footer are not
content the claims mention and are not modelled; the library's automatic
overflow pagination is behaviour of fpdf itself, outside the source. -/
structure Pdf where
  rpages : List Page
deriving DecidableEq

/-- `pdf.add_page()`. -/
def Pdf.add_page (p : Pdf) : Pdf := ⟨[] :: p.rpages⟩

/-- Place one item on the current (most recent) page. -/
def Pdf.put (p : Pdf) (it : PdfItem) : Pdf :=
  ⟨match p.rpages with
    | [] => []
    | pg :: rest => (pg ++ [it]) :: rest⟩

/-- Place a sequence of items on the current page, in order. -/
def Pdf.putMany (p : Pdf) (its : List PdfItem) : Pdf :=
  its.foldl Pdf.put p

/-- The document's pages in order. -/
def Pdf.pages (p : Pdf) : List Page := p.rpages.reverse

/-- The cover page content (`add_cover`, src/app.py lines 98-109). -/
def coverItems (project author report_date : String) : List PdfItem :=
  [PdfItem.text "Liquefaction Risk Evaluation Report",
   PdfItem.text project,
   PdfItem.text ("Prepared by: " ++ author),
   PdfItem.text ("Date: " ++ report_date)]

def add_cover (pdf : Pdf) (project author report_date : String) : Pdf :=
  Pdf.putMany (Pdf.add_page pdf) (coverItems project author report_date)

/-- One TOC line (`add_toc` loop body, line 119):
`f"{i}. {r.id} - {r.ground_type} - FL={r.FL}"` with `i` 1-based. -/
def tocLine (df : Table) (i : Nat) : String :=
  toString (i + 1) ++ ". " ++ (df.cellAt "id" i).pyStr ++ " - " ++
    (df.cellAt "ground_type" i).pyStr ++ " - FL=" ++ (df.cellAt "FL" i).pyStr

/-- The TOC page content (`add_toc`, src/app.py lines 112-120): heading,
then one line per record in table order. -/
def tocItems (df : Table) : List PdfItem :=
  PdfItem.text "Table of Contents" ::
    (List.range df.nrows).map (fun i => PdfItem.text (tocLine df i))

def add_toc (pdf : Pdf) (df : Table) : Pdf :=
  Pdf.putMany (Pdf.add_page pdf) (tocItems df)

/-- The overview page content (`add_overview_charts`, lines 123-131):
heading, bar chart image on the left, scatter image on the right. -/
def overviewItems (bar : BarChart) (sc : ScatterChart) : List PdfItem :=
  [PdfItem.text "Overview",
   PdfItem.image (ChartImg.barImg bar),
   PdfItem.image (ChartImg.scatterImg sc)]

def add_overview_charts (pdf : Pdf) (bar : BarChart) (sc : ScatterChart) : Pdf :=
  Pdf.putMany (Pdf.add_page pdf) (overviewItems bar sc)

/-- One site detail page (`add_site_pages` loop body, lines 135-150): id
heading; coordinates only when both columns exist on the table; ground
type, FL, risk level, recommendation; remarks only for a non-blank note
(`getattr(r, "note", "")` defaults the whole field when the column is
missing). -/
def siteItems (df : Table) (i : Nat) : List PdfItem :=
  [PdfItem.text ("Site ID: " ++ (df.cellAt "id" i).pyStr)]
    ++ (if df.hasCol "lat" && df.hasCol "lon" then
          [PdfItem.text ("Coordinates: " ++ (df.cellAt "lat" i).pyStr ++ ", " ++
            (df.cellAt "lon" i).pyStr)]
        else [])
    ++ [PdfItem.text ("Ground Type: " ++ (df.cellAt "ground_type" i).pyStr),
        PdfItem.text ("Corrected FL Value: " ++ (df.cellAt "FL" i).pyStr),
        PdfItem.text ("Risk Level: " ++ (df.cellAt "risk_level" i).pyStr),
        PdfItem.text ("Design Recommendation: " ++ (df.cellAt "suggestion" i).pyStr)]
    ++ (if noteVisible (if df.hasCol "note" then df.cellAt "note" i else Cell.str "") then
          [PdfItem.text ("Remarks: " ++
            (if df.hasCol "note" then df.cellAt "note" i else Cell.str "").pyStr)]
        else [])

def add_site_pages (pdf : Pdf) (df : Table) : Pdf :=
  (List.range df.nrows).foldl (fun q i => Pdf.putMany (Pdf.add_page q) (siteItems df i)) pdf

/-- `build_pdf_booklet` (src/app.py lines 153-168): refuse an empty table
with the exact error message before anything else — in the source the chart
images are only rendered and saved, and pages only added, after this guard;
otherwise return the assembled document (its `bytes(pdf.output())`). -/
def build_pdf_booklet (df : Table) (project author report_date : String) :
    Except String (List Page) :=
  if df.nrows = 0 then Except.error "Cannot generate report: No site data provided"
  else
    let bar := plot_fl_bar df
    let sc := plot_locations_scatter df
    let pdf : Pdf := ⟨[]⟩
    let pdf := add_cover pdf project author report_date
    let pdf := add_toc pdf df
    let pdf := add_overview_charts pdf bar sc
    let pdf := add_site_pages pdf df
    Except.ok pdf.pages

theorem putMany_cons (rest : List Page) (its : List PdfItem) : ∀ pg : Page,
    Pdf.putMany ⟨pg :: rest⟩ its = ⟨(pg ++ its) :: rest⟩ := by
  induction its with
  | nil => intro pg; simp [Pdf.putMany]
  | cons it its ih =>
    intro pg
    show Pdf.putMany (Pdf.put ⟨pg :: rest⟩ it) its = _
    rw [show Pdf.put ⟨pg :: rest⟩ it = ⟨(pg ++ [it]) :: rest⟩ from rfl, ih]
    simp

theorem add_page_putMany (p : Pdf) (its : List PdfItem) :
    Pdf.putMany (Pdf.add_page p) its = ⟨its :: p.rpages⟩ := by
  rw [show Pdf.add_page p = ⟨[] :: p.rpages⟩ from rfl, putMany_cons]
  simp

theorem add_site_pages_foldl (df : Table) (l : List Nat) : ∀ p : Pdf,
    l.foldl (fun q i => Pdf.putMany (Pdf.add_page q) (siteItems df i)) p =
      ⟨(l.map (siteItems df)).reverse ++ p.rpages⟩ := by
  induction l with
  | nil => intro p; rfl
  | cons i is ih =>
    intro p
    show is.foldl _ (Pdf.putMany (Pdf.add_page p) (siteItems df i)) = _
    rw [add_page_putMany, ih]
    simp [List.reverse_cons, List.append_assoc]

/-- Closed form of a successful booklet build: cover, TOC, overview, then
one detail page per record in table order. -/
theorem build_pdf_booklet_eq (df : Table) (p a d : String) (h : df.nrows ≠ 0) :
    build_pdf_booklet df p a d =
      Except.ok ([coverItems p a d, tocItems df,
        overviewItems (plot_fl_bar df) (plot_locations_scatter df)] ++
        (List.range df.nrows).map (siteItems df)) := by
  unfold build_pdf_booklet
  rw [if_neg h]
  show Except.ok (Pdf.pages (add_site_pages (add_overview_charts
    (add_toc (add_cover ⟨[]⟩ p a d) df) (plot_fl_bar df) (plot_locations_scatter df)) df)) = _
  have h1 : add_cover ⟨[]⟩ p a d = ⟨[coverItems p a d]⟩ :=
    add_page_putMany ⟨[]⟩ _
  have h2 : add_toc ⟨[coverItems p a d]⟩ df = ⟨[tocItems df, coverItems p a d]⟩ :=
    add_page_putMany _ _
  have h3 : add_overview_charts ⟨[tocItems df, coverItems p a d]⟩
      (plot_fl_bar df) (plot_locations_scatter df) =
      ⟨[overviewItems (plot_fl_bar df) (plot_locations_scatter df),
        tocItems df, coverItems p a d]⟩ :=
    add_page_putMany _ _
  have h4 : add_site_pages ⟨[overviewItems (plot_fl_bar df) (plot_locations_scatter df),
      tocItems df, coverItems p a d]⟩ df =
      ⟨((List.range df.nrows).map (siteItems df)).reverse ++
        [overviewItems (plot_fl_bar df) (plot_locations_scatter df),
         tocItems df, coverItems p a d]⟩ :=
    add_site_pages_foldl df (List.range df.nrows) _
  rw [h1, h2, h3, h4]
  simp [Pdf.pages, List.reverse_append, List.reverse_reverse]

/-- C3: building from an empty table fails with the exact descriptive error
(raised in the source before any chart is rendered or any page added) and
returns no document; any non-empty table avoids this error path. -/
theorem build_empty_guard (df : Table) (p a d : String) :
    (df.nrows = 0 →
      build_pdf_booklet df p a d =
        Except.error "Cannot generate report: No site data provided") ∧
    (df.nrows ≠ 0 → (build_pdf_booklet df p a d).isOk = true) := by
  constructor
  · intro h
    unfold build_pdf_booklet
    rw [if_pos h]
  · intro h
    rw [build_pdf_booklet_eq df p a d h]
    rfl

/-- A well-formed one-row table for booklet witnesses. -/
def dfSmall : Table :=
  [("id", [Cell.str "S1"]), ("lat", [Cell.num 35]), ("lon", [Cell.num 139]),
   ("FL", [Cell.num 2]), ("ground_type", [Cell.str "Fill"]),
   ("risk_level", [Cell.str "Low"]),
   ("suggestion", [Cell.str "Spread/Strip foundation"]), ("note", [Cell.str ""])]

/-- Witness for C3: the empty table errors, a one-row table succeeds. -/
theorem build_empty_guard_w :
    (Table.nrows [] = 0 ∧
      build_pdf_booklet [] "Proj" "Auth" "2025-10-12" =
        Except.error "Cannot generate report: No site data provided") ∧
    (dfSmall.nrows ≠ 0 ∧
      (build_pdf_booklet dfSmall "Proj" "Auth" "2025-10-12").isOk = true) :=
  ⟨⟨rfl, (build_empty_guard [] "Proj" "Auth" "2025-10-12").1 rfl⟩,
   ⟨by decide, (build_empty_guard dfSmall "Proj" "Auth" "2025-10-12").2 (by decide)⟩⟩

/-- C4: in any successful build, the second page is the table of contents:
the heading followed by exactly one line per record, in table order, the
i-th (1-based) being `"{i}. {id} - {ground_type} - FL={FL}"` with every
field in its default textual form (`cellAt`/`pyStr`). -/
theorem toc_page_lines (df : Table) (p a d : String) (h : df.nrows ≠ 0) :
    ∃ pgs, build_pdf_booklet df p a d = Except.ok pgs ∧
      pgs[1]? = some (PdfItem.text "Table of Contents" ::
        (List.range df.nrows).map (fun i => PdfItem.text (tocLine df i))) ∧
      ((List.range df.nrows).map (fun i => PdfItem.text (tocLine df i))).length =
        df.nrows := by
  refine ⟨_, build_pdf_booklet_eq df p a d h, rfl, by simp⟩

/-- Witness for C4 on the built-in sample table. -/
theorem toc_page_lines_w :
    get_sample_df.nrows ≠ 0 ∧
    (∃ pgs, build_pdf_booklet get_sample_df "Proj" "Auth" "2025-10-12" = Except.ok pgs ∧
      pgs[1]? = some (PdfItem.text "Table of Contents" ::
        (List.range get_sample_df.nrows).map
          (fun i => PdfItem.text (tocLine get_sample_df i))) ∧
      ((List.range get_sample_df.nrows).map
        (fun i => PdfItem.text (tocLine get_sample_df i))).length =
          get_sample_df.nrows) :=
  ⟨by decide, toc_page_lines get_sample_df "Proj" "Auth" "2025-10-12" (by decide)⟩

/-- C5: a successful build has exactly 3 + n pages: cover, TOC, overview,
then one detail page per record in table order. -/
theorem booklet_page_structure (df : Table) (p a d : String) (h : df.nrows ≠ 0) :
    ∃ pgs, build_pdf_booklet df p a d = Except.ok pgs ∧
      pgs.length = 3 + df.nrows ∧
      pgs.take 3 = [coverItems p a d, tocItems df,
        overviewItems (plot_fl_bar df) (plot_locations_scatter df)] ∧
      pgs.drop 3 = (List.range df.nrows).map (siteItems df) := by
  refine ⟨_, build_pdf_booklet_eq df p a d h, ?_, rfl, rfl⟩
  simp only [List.length_append, List.length_cons, List.length_nil, List.length_map,
    List.length_range]

/-- Witness for C5 on a one-row table: 3 + 1 pages. -/
theorem booklet_page_structure_w :
    dfSmall.nrows ≠ 0 ∧
    (∃ pgs, build_pdf_booklet dfSmall "Proj" "Auth" "2025-10-12" = Except.ok pgs ∧
      pgs.length = 3 + dfSmall.nrows ∧
      pgs.take 3 = [coverItems "Proj" "Auth" "2025-10-12", tocItems dfSmall,
        overviewItems (plot_fl_bar dfSmall) (plot_locations_scatter dfSmall)] ∧
      pgs.drop 3 = (List.range dfSmall.nrows).map (siteItems dfSmall)) :=
  ⟨by decide, booklet_page_structure dfSmall "Proj" "Auth" "2025-10-12" (by decide)⟩

end LiqApp
